import Mathlib

/-!
Shallow embedding of `src/server.js` (questionbankapp): an Express backend
with four handlers — signup, login, grade, leaderboard — over a Postgres
database.  The database is modelled as lists of rows; SQL statements are
modelled by their relational effect.  The external judgment service (Groq)
and the JavaScript `JSON.parse` builtin are modelled as abstract inputs to
the grade handler.  JavaScript request-body fields that may be absent are
modelled as `Option`; JS truthiness of a string field ("" , null and
undefined are falsy) is the `truthy` predicate below.
-/

/-- A row of the `users` table (server.js lines 34-43). -/
structure User where
  username : String
  firstName : String
  lastName : String
  passwordHash : String
  createdAt : Nat
deriving Repr, DecidableEq

/-- A row of the `student_progress` table (server.js lines 183-191). -/
structure Completion where
  username : String
  questionId : Int
  completedAt : Nat
deriving Repr, DecidableEq

/-- The database state: contents of the two tables. -/
structure Db where
  users : List User
  progress : List Completion
deriving Repr, DecidableEq

/-- JS truthiness of an optional string request field: `undefined`/`null`
(`none`) and the empty string are falsy, any other string is truthy. -/
def truthy : Option String → Bool
  | none => false
  | some s => !(s == "")

/-! ### JSON values (result of the JS `JSON.parse` builtin) -/

/-- A JSON value, as produced by `JSON.parse`. -/
inductive Json where
  | null : Json
  | bool : Bool → Json
  | num : Int → Json
  | str : String → Json
  | arr : List Json → Json
  | obj : List (String × Json) → Json

/-- JS property access `j.k` on a non-null parsed JSON value: a field of an
object, `undefined` (`none`) on any other non-null value.  Property access
on null throws a TypeError in JS; that case is modelled separately (see
`Json.isNull` and the crash branch of the grade handler), so this function
is only consulted on non-null values. -/
def Json.getField : Json → String → Option Json
  | .obj fs, k => fs.lookup k
  | _, _ => none

/-- Is the parsed JSON value the JS null?  Dereferencing it (line 178 reads
`parsed.status`) throws a TypeError. -/
def Json.isNull : Json → Bool
  | .null => true
  | _ => false

/-- The strict-equality test of `parsed.status` against the string Correct
(server.js line 178), for a non-null `parsed` (on null the access throws
instead; the handler takes its crash branch before consulting this test). -/
def statusIsCorrect (j : Json) : Bool :=
  match j.getField "status" with
  | some (.str s) => s == "Correct"
  | _ => false

/-! ### Response parsing (server.js lines 164-171) -/

/-- The global regex replace on line 165 deleting every occurrence of the
fence markers, on the character list: at each position the seven-character
json fence marker is tried first, then the bare three-backtick fence; on a
match the scan resumes just after it. -/
def stripFencesAux (l : List Char) : List Char :=
  match l with
  | [] => []
  | c :: rest =>
    if "```json".toList.isPrefixOf (c :: rest) then stripFencesAux (rest.drop 6)
    else if "```".toList.isPrefixOf (c :: rest) then stripFencesAux (rest.drop 2)
    else c :: stripFencesAux rest
termination_by l.length
decreasing_by
  · simp only [List.length_drop, List.length_cons]
    omega
  · simp only [List.length_drop, List.length_cons]
    omega
  · simp only [List.length_cons]
    omega

/-- Markdown code-fence stripping: the global fence-deleting replace of
line 165 applied to a string. -/
def stripFences (s : String) : String := ⟨stripFencesAux s.data⟩

/-- Whitespace trimming on the character list (JS `String.prototype.trim`):
drop whitespace from both ends. -/
def trimData (l : List Char) : List Char :=
  ((l.dropWhile Char.isWhitespace).reverse.dropWhile Char.isWhitespace).reverse

/-- JS `s.trim()`. -/
def trimStr (s : String) : String := ⟨trimData s.data⟩

/-- Substring containment on character lists (JS `String.prototype.includes`). -/
def occursIn (needle : List Char) : List Char → Bool
  | [] => needle.isEmpty
  | c :: rest => needle.isPrefixOf (c :: rest) || occursIn needle rest

/-- The fallback test of line 168: lowercase the raw text character by
character and look for the substring correct. -/
def containsCorrect (raw : String) : Bool :=
  occursIn "correct".data (raw.data.map Char.toLower)

/-- The fallback verdict object built when JSON parsing fails (lines 168-170). -/
def fallbackVerdict (raw : String) : Json :=
  if containsCorrect raw then Json.obj [("status", Json.str "Correct")]
  else Json.obj [("status", Json.str "Incorrect"),
                 ("hint", Json.str "Review the concept and try again.")]

/-- The two-stage parse of the payload of the judgment service (lines
164-171):
strip code fences and trim, attempt `JSON.parse` (the abstract `jp`), and
on failure fall back to the substring heuristic on the raw text. -/
def parseVerdict (jp : String → Option Json) (raw : String) : Json :=
  match jp (trimStr (stripFences raw)) with
  | some j => j
  | none => fallbackVerdict raw

/-! ### The grade handler (server.js lines 112-209) -/

/-- Outcome of the call to the external judgment service, as observed by the
handler: the fetch (or reading the response body) threw; the service
answered with a non-success HTTP status; or a successful response whose
`choices[0].message.content` is the given optional string. -/
inductive AiResult where
  | fetchError : AiResult
  | apiError : String → AiResult
  | success : Option String → AiResult

/-- Environment of one grade request: the `GROQ_API_KEY` variable, the
behaviour of the external service, and whether the database work of the
persistence step fails (covering `getDb`, `CREATE TABLE` and the upsert,
lines 179-205). -/
structure GradeEnv where
  apiKey : Option String
  ai : AiResult
  dbFail : Bool

/-- Outcome of the grade handler.  `crashed` is the outcome when line 178
reads `parsed.status` on a null verdict: the TypeError is thrown outside
every try/catch of the handler, so no response is sent at all. -/
inductive GradeRes where
  | missingFields : String → GradeRes
  | noApiKey : String → GradeRes
  | aiServiceError : String → GradeRes
  | fetchFailed : String → GradeRes
  | verdict : Json → GradeRes
  | crashed : GradeRes

/-- HTTP status code of a grade response; the sentinel 0 marks the crashed
outcome, which sends no HTTP response. -/
def gradeStatus : GradeRes → Nat
  | .missingFields _ => 400
  | .noApiKey _ => 500
  | .aiServiceError _ => 502
  | .fetchFailed _ => 500
  | .verdict _ => 200
  | .crashed => 0

/-- Definition of `canSave` at server.js line 119, namely
`username && questionId !== undefined && questionId !== null`:
the username field must be truthy, the questionId
merely present (not undefined/null) — so the number 0 qualifies. -/
def canSave (username : Option String) (questionId : Option Int) : Bool :=
  truthy username && questionId.isSome

/-- Does a progress row match the (username, questionId) pair? -/
def pairMatch (u : String) (q : Int) (c : Completion) : Bool :=
  c.username == u && c.questionId == q

/-- The upsert `INSERT ... ON CONFLICT (username, question_id) DO UPDATE SET
completed_at = NOW()` (lines 193-198): refresh the timestamp of matching
rows if any exist, otherwise append a fresh row. -/
def upsertProgress (ps : List Completion) (u : String) (q : Int) (now : Nat) :
    List Completion :=
  if ps.any (pairMatch u q) then
    ps.map (fun c => if pairMatch u q c then { c with completedAt := now } else c)
  else ps ++ [⟨u, q, now⟩]

/-- The POST /api/grade handler (lines 112-209).  `jp` is the abstract
`JSON.parse` (returning `none` when it would throw); `now` is the database
clock used for `NOW()`.  Returns the response and the new database state. -/
def gradeHandler (jp : String → Option Json) (env : GradeEnv) (db : Db) (now : Nat)
    (question answer username : Option String) (questionId : Option Int) :
    GradeRes × Db :=
  if !(truthy question && truthy answer) then
    (.missingFields "Missing question or answer", db)
  else
    let save := canSave username questionId
    if !(truthy env.apiKey) then (.noApiKey "GROQ_API_KEY is not configured", db)
    else
      match env.ai with
      | .fetchError => (.fetchFailed "Internal server error during grading", db)
      | .apiError _ => (.aiServiceError "AI service error", db)
      | .success content =>
        let raw := trimStr (content.getD "")
        let parsed := parseVerdict jp raw
        if parsed.isNull then (.crashed, db)
        else
          let db' :=
            if statusIsCorrect parsed && save && !env.dbFail then
              { db with
                progress := upsertProgress db.progress (username.getD "")
                  (questionId.getD 0) now }
            else db
          (.verdict parsed, db')

/-! ### The signup handler (server.js lines 24-63) -/

/-- Response of the signup handler. -/
inductive SignupRes where
  | missingFields : SignupRes
  | taken : String → SignupRes
  | ok : String → String → String → SignupRes
  | serverError : String → SignupRes
deriving Repr, DecidableEq

/-- HTTP status code of a signup response. -/
def signupStatus : SignupRes → Nat
  | .missingFields => 400
  | .taken _ => 409
  | .ok _ _ _ => 200
  | .serverError _ => 500

/-- The POST /api/signup handler (lines 24-63).  `dbFail` models a thrown
database error (connection or statement failure before any row is written).
Returns the response and the new database state. -/
def signup (db : Db) (dbFail : Bool) (now : Nat)
    (username firstName lastName passwordHash : Option String) :
    SignupRes × Db :=
  if !(truthy username && truthy firstName && truthy lastName &&
       truthy passwordHash) then
    (.missingFields, db)
  else if dbFail then (.serverError "Server error during signup", db)
  else
    let u := username.getD ""
    let existing := db.users.filter (fun x => x.username == u)
    if existing.length > 0 then
      (.taken ("Username \"" ++ u ++ "\" is already taken."), db)
    else
      (.ok u (firstName.getD "") (lastName.getD ""),
       { db with
         users := db.users ++
           [⟨u, firstName.getD "", lastName.getD "", passwordHash.getD "", now⟩] })

/-! ### The login handler (server.js lines 66-109) -/

/-- Response of the login handler.  Both 401 branches share one constructor
so that their messages, not their shapes, distinguish them. -/
inductive LoginRes where
  | missingFields : LoginRes
  | unauthorized : String → LoginRes
  | ok : String → String → String → List Int → LoginRes
  | serverError : String → LoginRes
deriving Repr, DecidableEq

/-- HTTP status code of a login response. -/
def loginStatus : LoginRes → Nat
  | .missingFields => 400
  | .unauthorized _ => 401
  | .ok _ _ _ _ => 200
  | .serverError _ => 500

/-- The POST /api/login handler (lines 66-109).  Reads only; returns the
response (identity fields plus the completed question ids on success). -/
def login (db : Db) (dbFail : Bool) (username passwordHash : Option String) :
    LoginRes :=
  if !(truthy username && truthy passwordHash) then .missingFields
  else if dbFail then .serverError "Server error during login"
  else
    let u := username.getD ""
    match db.users.filter (fun x => x.username == u) with
    | [] => .unauthorized "Username not found. Check spelling or sign up."
    | user :: _ =>
      if user.passwordHash != passwordHash.getD "" then
        .unauthorized "Incorrect password."
      else
        .ok user.username user.firstName user.lastName
          ((db.progress.filter (fun c => c.username == u)).map (·.questionId))

/-! ### The leaderboard handler (server.js lines 212-244) -/

/-- One leaderboard entry. -/
structure LbEntry where
  username : String
  firstName : String
  lastName : String
  done : Nat
deriving Repr, DecidableEq

/-- Value of `COUNT(sp.question_id)` for one user in the LEFT JOIN: the number of
progress rows carrying that username (0 when there are none). -/
def doneCount (db : Db) (u : String) : Nat :=
  (db.progress.filter (fun c => c.username == u)).length

/-- The row the aggregation query produces for one user. -/
def lbEntry (db : Db) (u : User) : LbEntry :=
  ⟨u.username, u.firstName, u.lastName, doneCount db u.username⟩

/-- Sort key `ORDER BY questions_done DESC, u.username ASC` as a boolean
total preorder on entries. -/
def lbLe (a b : LbEntry) : Bool :=
  b.done < a.done || (a.done == b.done && decide (a.username ≤ b.username))

/-- The ordered list the aggregation query returns. -/
def lbRows (db : Db) : List LbEntry :=
  (db.users.map (lbEntry db)).mergeSort lbLe

/-- Response of the leaderboard handler. -/
inductive LbRes where
  | ok : List LbEntry → LbRes
  | serverError : String → LbRes
deriving Repr, DecidableEq

/-- The GET /api/leaderboard handler (lines 212-244). -/
def leaderboard (db : Db) (dbFail : Bool) : LbRes :=
  if dbFail then .serverError "Could not load leaderboard"
  else .ok (lbRows db)

/-! ### Helper lemmas -/

/-- A non-empty string field passes the truthiness test of the handlers. -/
theorem truthy_some_of_ne {s : String} (h : s ≠ "") : truthy (some s) = true := by
  simp [truthy, h]

/-- A verdict whose status test succeeds is not the JS null (so reading
`parsed.status` on it at line 178 does not throw). -/
theorem isNull_false_of_correct {j : Json} (h : statusIsCorrect j = true) :
    j.isNull = false := by
  cases j <;> simp_all [statusIsCorrect, Json.getField, Json.isNull]

/-! ### C3: response-parsing policy -/

/-- C3: for every textual payload from the judgment service, the Grader
strips Markdown code fences (and trims) before handing the text to
`JSON.parse`; when that parse yields a value, that value is the verdict;
when (and only when) it fails, the verdict is the Correct object exactly
when the raw text contains "correct" case-insensitively, else the
Incorrect object with the fixed generic hint. -/
theorem grader_parse_policy (jp : String → Option Json) (raw : String) :
    (∀ v, jp (trimStr (stripFences raw)) = some v → parseVerdict jp raw = v) ∧
    (jp (trimStr (stripFences raw)) = none →
      parseVerdict jp raw =
        if containsCorrect raw then Json.obj [("status", Json.str "Correct")]
        else Json.obj [("status", Json.str "Incorrect"),
          ("hint", Json.str "Review the concept and try again.")]) := by
  constructor
  · intro v h
    simp [parseVerdict, h]
  · intro h
    simp [parseVerdict, h, fallbackVerdict]

/-- Witness for C3: with a `JSON.parse` that always fails and the raw text
"The answer is Correct!", the fallback heuristic yields the Correct verdict. -/
theorem grader_parse_policy_witness :
    (fun _ : String => (none : Option Json))
        (trimStr (stripFences "The answer is Correct!")) = none ∧
    parseVerdict (fun _ : String => none) "The answer is Correct!" =
      Json.obj [("status", Json.str "Correct")] := by
  refine ⟨rfl, ?_⟩
  have h := (grader_parse_policy (fun _ : String => none) "The answer is Correct!").2 rfl
  rw [h]
  rfl

/-! ### C2: persistence failure never changes the grade response -/

/-- C2: the response of the grade handler does not depend on whether the
database work of the persistence step fails; in particular, for a request
whose verdict is Correct and for which persistence is attempted (both
optional fields pass the eligibility test), the handler still returns the
200 verdict object, and the store is unchanged, when the database fails. -/
theorem grade_db_failure_swallowed (jp : String → Option Json)
    (key : Option String) (ai : AiResult) (db : Db) (now : Nat)
    (q a u : Option String) (qid : Option Int) :
    (gradeHandler jp ⟨key, ai, true⟩ db now q a u qid).1 =
      (gradeHandler jp ⟨key, ai, false⟩ db now q a u qid).1 ∧
    (∀ content, ai = .success content → truthy q = true → truthy a = true →
      truthy key = true →
      statusIsCorrect (parseVerdict jp (trimStr (content.getD ""))) = true →
      canSave u qid = true →
      (gradeHandler jp ⟨key, ai, true⟩ db now q a u qid).1 =
        .verdict (parseVerdict jp (trimStr (content.getD ""))) ∧
      gradeStatus (gradeHandler jp ⟨key, ai, true⟩ db now q a u qid).1 = 200 ∧
      (gradeHandler jp ⟨key, ai, true⟩ db now q a u qid).2 = db) := by
  constructor
  · cases hqa : (truthy q && truthy a) with
    | false => simp [gradeHandler, hqa]
    | true =>
      cases hk : truthy key with
      | false => simp [gradeHandler, hqa, hk]
      | true =>
        cases ai with
        | fetchError => simp [gradeHandler, hqa, hk]
        | apiError e => simp [gradeHandler, hqa, hk]
        | success content =>
          cases hn : (parseVerdict jp (trimStr (content.getD ""))).isNull <;>
            simp [gradeHandler, hqa, hk, hn]
  · rintro content rfl hq ha hk hc hsave
    have hnn := isNull_false_of_correct hc
    refine ⟨?_, ?_, ?_⟩ <;>
      simp [gradeHandler, hq, ha, hk, hnn, gradeStatus]

/-- Witness for C2: concrete instance in which the verdict is Correct, the
persistence-eligibility test holds, and the database write fails. -/
theorem grade_db_failure_swallowed_witness :
    (gradeHandler (fun _ : String => none)
        ⟨some "k", .success (some "Correct"), true⟩ ⟨[], []⟩ 5
        (some "q") (some "a") (some "ana") (some 3)).1 =
      .verdict (parseVerdict (fun _ : String => none)
        (trimStr ((some "Correct").getD ""))) ∧
    gradeStatus (gradeHandler (fun _ : String => none)
        ⟨some "k", .success (some "Correct"), true⟩ ⟨[], []⟩ 5
        (some "q") (some "a") (some "ana") (some 3)).1 = 200 ∧
    (gradeHandler (fun _ : String => none)
        ⟨some "k", .success (some "Correct"), true⟩ ⟨[], []⟩ 5
        (some "q") (some "a") (some "ana") (some 3)).2 = ⟨[], []⟩ :=
  (grade_db_failure_swallowed (fun _ : String => none) (some "k")
    (.success (some "Correct")) ⟨[], []⟩ 5 (some "q") (some "a")
    (some "ana") (some 3)).2 (some "Correct") rfl rfl rfl rfl (by decide) rfl

/-! ### C9: grade request validation -/

/-- C9: a grade request with a missing (falsy) question or answer is
rejected with the 400 message and no state change; one with both present
but no configured service credential is rejected with the 500 message,
with no state change, and with a response that does not depend on the
behaviour of the external service (the service is never contacted). -/
theorem grade_validation (jp : String → Option Json) (key : Option String)
    (ai ai2 : AiResult) (dbF : Bool) (db : Db) (now : Nat)
    (q a u : Option String) (qid : Option Int) :
    ((truthy q = false ∨ truthy a = false) →
      gradeHandler jp ⟨key, ai, dbF⟩ db now q a u qid =
        (.missingFields "Missing question or answer", db) ∧
      gradeStatus (gradeHandler jp ⟨key, ai, dbF⟩ db now q a u qid).1 = 400) ∧
    (truthy q = true → truthy a = true → truthy key = false →
      gradeHandler jp ⟨key, ai, dbF⟩ db now q a u qid =
        (.noApiKey "GROQ_API_KEY is not configured", db) ∧
      gradeStatus (gradeHandler jp ⟨key, ai, dbF⟩ db now q a u qid).1 = 500 ∧
      gradeHandler jp ⟨key, ai, dbF⟩ db now q a u qid =
        gradeHandler jp ⟨key, ai2, dbF⟩ db now q a u qid) := by
  constructor
  · intro h
    have hqa : (truthy q && truthy a) = false := by
      rcases h with h | h <;> simp [h]
    exact ⟨by simp [gradeHandler, hqa], by simp [gradeHandler, hqa, gradeStatus]⟩
  · intro hq ha hk
    refine ⟨by simp [gradeHandler, hq, ha, hk], ?_, ?_⟩ <;>
      simp [gradeHandler, hq, ha, hk, gradeStatus]

/-- Witness for C9: a request without an answer is rejected 400; a complete
request without a credential is rejected 500 independently of the service. -/
theorem grade_validation_witness :
    (gradeHandler (fun _ : String => none) ⟨some "k", .fetchError, false⟩
        ⟨[], []⟩ 5 (some "q") none none none =
      (.missingFields "Missing question or answer", ⟨[], []⟩) ∧
     gradeStatus (gradeHandler (fun _ : String => none)
        ⟨some "k", .fetchError, false⟩ ⟨[], []⟩ 5 (some "q") none none none).1 =
      400) ∧
    (gradeHandler (fun _ : String => none) ⟨none, .fetchError, false⟩
        ⟨[], []⟩ 5 (some "q") (some "a") none none =
      (.noApiKey "GROQ_API_KEY is not configured", ⟨[], []⟩) ∧
     gradeStatus (gradeHandler (fun _ : String => none)
        ⟨none, .fetchError, false⟩ ⟨[], []⟩ 5 (some "q") (some "a")
        none none).1 = 500 ∧
     gradeHandler (fun _ : String => none) ⟨none, .fetchError, false⟩
        ⟨[], []⟩ 5 (some "q") (some "a") none none =
       gradeHandler (fun _ : String => none)
        ⟨none, .success (some "Correct"), false⟩ ⟨[], []⟩ 5 (some "q")
        (some "a") none none) :=
  ⟨(grade_validation (fun _ : String => none) (some "k") .fetchError
      .fetchError false ⟨[], []⟩ 5 (some "q") none none none).1
      (Or.inr rfl),
   (grade_validation (fun _ : String => none) none .fetchError
      (.success (some "Correct")) false ⟨[], []⟩ 5 (some "q") (some "a")
      none none).2 rfl rfl rfl⟩

/-! ### C10: asymmetry of the persistence-eligibility check -/

/-- C10: `canSave` treats its two optional fields asymmetrically: the
question id counts as supplied whenever it is not undefined/null (so id 0
qualifies), while the username must be truthy (so the empty string does
not qualify).  Consequently, under a Correct verdict, a request with
username "" and question id 0 leaves the store unchanged, while one with a
non-empty username and question id 0 is upserted. -/
theorem canSave_asymmetric (jp : String → Option Json) (key : Option String)
    (content : Option String) (db : Db) (now : Nat) (q a : Option String)
    (hq : truthy q = true) (ha : truthy a = true) (hk : truthy key = true)
    (hc : statusIsCorrect (parseVerdict jp (trimStr (content.getD ""))) = true) :
    (∀ (u : Option String) (qid : Option Int),
      canSave u qid = (truthy u && qid.isSome)) ∧
    canSave (some "") (some 0) = false ∧
    (∀ s : String, s ≠ "" → canSave (some s) (some 0) = true) ∧
    (gradeHandler jp ⟨key, .success content, false⟩ db now q a
        (some "") (some 0)).2 = db ∧
    (∀ s : String, s ≠ "" →
      (gradeHandler jp ⟨key, .success content, false⟩ db now q a
          (some s) (some 0)).2 =
        { db with progress := upsertProgress db.progress s 0 now }) := by
  have hnn := isNull_false_of_correct hc
  refine ⟨fun u qid => rfl, rfl, ?_, ?_, ?_⟩
  · intro s hs
    simp [canSave, truthy_some_of_ne hs]
  · have hsave : canSave (some "") (some 0) = false := rfl
    simp [gradeHandler, hq, ha, hk, hnn, hsave]
  · intro s hs
    have hsave : canSave (some s) (some 0) = true := by
      simp [canSave, truthy_some_of_ne hs]
    simp [gradeHandler, hq, ha, hk, hnn, hsave, hc]

/-- Witness for C10: concrete Correct-verdict request; username "" with
question id 0 is not persisted, username "ana" with question id 0 is. -/
theorem canSave_asymmetric_witness :
    canSave (some "") (some 0) = false ∧
    (gradeHandler (fun _ : String => none)
        ⟨some "k", .success (some "Correct"), false⟩ ⟨[], []⟩ 5
        (some "q") (some "a") (some "") (some 0)).2 = ⟨[], []⟩ ∧
    (gradeHandler (fun _ : String => none)
        ⟨some "k", .success (some "Correct"), false⟩ ⟨[], []⟩ 5
        (some "q") (some "a") (some "ana") (some 0)).2 =
      { users := [], progress := upsertProgress [] "ana" 0 5 } :=
  ⟨(canSave_asymmetric (fun _ : String => none) (some "k") (some "Correct")
      ⟨[], []⟩ 5 (some "q") (some "a") rfl rfl rfl (by decide)).2.1,
   (canSave_asymmetric (fun _ : String => none) (some "k") (some "Correct")
      ⟨[], []⟩ 5 (some "q") (some "a") rfl rfl rfl (by decide)).2.2.2.1,
   (canSave_asymmetric (fun _ : String => none) (some "k") (some "Correct")
      ⟨[], []⟩ 5 (some "q") (some "a") rfl rfl rfl (by decide)).2.2.2.2
      "ana" (by decide)⟩

/-! ### C1: persistence exactly when both optional fields are supplied -/

/-- C1: for a grade request whose verdict is Correct (and whose database
write succeeds), if the username is supplied (truthy) and the question id
is supplied (not undefined/null) the handler upserts the pair into the
completion store, refreshing the timestamp on conflict; if either is
missing the store is unchanged; in both cases the 200 verdict object is
returned. -/
theorem grade_persists_iff_supplied (jp : String → Option Json)
    (key : Option String) (content : Option String) (db : Db) (now : Nat)
    (q a u : Option String) (qid : Option Int)
    (hq : truthy q = true) (ha : truthy a = true) (hk : truthy key = true)
    (hc : statusIsCorrect (parseVerdict jp (trimStr (content.getD ""))) = true) :
    (truthy u = true → qid.isSome = true →
      (gradeHandler jp ⟨key, .success content, false⟩ db now q a u qid).2 =
        { db with
          progress := upsertProgress db.progress (u.getD "") (qid.getD 0) now }) ∧
    ((truthy u = false ∨ qid.isSome = false) →
      (gradeHandler jp ⟨key, .success content, false⟩ db now q a u qid).2 = db) ∧
    (gradeHandler jp ⟨key, .success content, false⟩ db now q a u qid).1 =
      .verdict (parseVerdict jp (trimStr (content.getD ""))) ∧
    gradeStatus
      (gradeHandler jp ⟨key, .success content, false⟩ db now q a u qid).1 =
      200 := by
  have hnn := isNull_false_of_correct hc
  refine ⟨?_, ?_, ?_, ?_⟩
  · intro hu hqid
    simp [gradeHandler, hq, ha, hk, hnn, canSave, hu, hqid, hc]
  · intro h
    have hsave : canSave u qid = false := by
      rcases h with h | h <;> simp [canSave, h]
    simp [gradeHandler, hq, ha, hk, hnn, hsave]
  · simp [gradeHandler, hq, ha, hk, hnn]
  · simp [gradeHandler, hq, ha, hk, hnn, gradeStatus]

/-- Witness for C1: with a Correct verdict, the supplied pair ("ana", 3) is
upserted, and a request missing the question id leaves the store unchanged. -/
theorem grade_persists_iff_supplied_witness :
    (gradeHandler (fun _ : String => none)
        ⟨some "k", .success (some "Correct"), false⟩ ⟨[], []⟩ 7
        (some "q") (some "a") (some "ana") (some 3)).2 =
      { users := [],
        progress := upsertProgress [] "ana" 3 7 } ∧
    (gradeHandler (fun _ : String => none)
        ⟨some "k", .success (some "Correct"), false⟩ ⟨[], []⟩ 7
        (some "q") (some "a") (some "ana") none).2 = ⟨[], []⟩ :=
  ⟨(grade_persists_iff_supplied (fun _ : String => none) (some "k")
      (some "Correct") ⟨[], []⟩ 7 (some "q") (some "a") (some "ana") (some 3)
      rfl rfl rfl (by decide)).1 rfl rfl,
   (grade_persists_iff_supplied (fun _ : String => none) (some "k")
      (some "Correct") ⟨[], []⟩ 7 (some "q") (some "a") (some "ana") none
      rfl rfl rfl (by decide)).2.1 (Or.inr rfl)⟩

/-! ### C7: duplicate signup conflicts and changes nothing -/

/-- C7: a signup request for a username already present in the user store
(with all fields supplied) yields the 409 conflict response naming the
taken username, and the database — in particular every stored field of the
existing user — is unchanged. -/
theorem signup_duplicate_conflict (db : Db) (now : Nat) (u : String)
    (f l p : Option String) (hu : u ≠ "")
    (hf : truthy f = true) (hl : truthy l = true) (hp : truthy p = true)
    (hex : ∃ x ∈ db.users, x.username = u) :
    signup db false now (some u) f l p =
      (.taken ("Username \"" ++ u ++ "\" is already taken."), db) ∧
    signupStatus (signup db false now (some u) f l p).1 = 409 := by
  obtain ⟨x, hxmem, hxname⟩ := hex
  have hmem : x ∈ db.users.filter (fun y => y.username == u) :=
    List.mem_filter.mpr ⟨hxmem, by simp [hxname]⟩
  have hpos : 0 < (db.users.filter (fun y => y.username == u)).length :=
    List.length_pos.mpr (List.ne_nil_of_mem hmem)
  have h1 : signup db false now (some u) f l p =
      (.taken ("Username \"" ++ u ++ "\" is already taken."), db) := by
    simp [signup, truthy_some_of_ne hu, hf, hl, hp, hpos]
  exact ⟨h1, by rw [h1]; rfl⟩

/-- Witness for C7: signing "ana" up again over a store holding "ana". -/
theorem signup_duplicate_conflict_witness :
    signup ⟨[⟨"ana", "A", "L", "h", 0⟩], []⟩ false 9 (some "ana")
        (some "B") (some "C") (some "h2") =
      (.taken "Username \"ana\" is already taken.",
       ⟨[⟨"ana", "A", "L", "h", 0⟩], []⟩) ∧
    signupStatus (signup ⟨[⟨"ana", "A", "L", "h", 0⟩], []⟩ false 9
        (some "ana") (some "B") (some "C") (some "h2")).1 = 409 :=
  signup_duplicate_conflict ⟨[⟨"ana", "A", "L", "h", 0⟩], []⟩ 9 "ana"
    (some "B") (some "C") (some "h2") (by decide) rfl rfl rfl
    ⟨⟨"ana", "A", "L", "h", 0⟩, by decide, rfl⟩

/-! ### C8: the two 401 login failures are distinct -/

/-- C8: a login whose username matches no stored user fails 401 with the
username-specific message; a login whose username matches a stored user
but whose supplied hash differs from the stored hash fails 401 with the
password-specific message; the two messages differ. -/
theorem login_distinct_failures (db : Db) (u p : String)
    (hu : u ≠ "") (hp : p ≠ "") :
    (db.users.filter (fun x => x.username == u) = [] →
      login db false (some u) (some p) =
        .unauthorized "Username not found. Check spelling or sign up.") ∧
    (∀ x rest, db.users.filter (fun y => y.username == u) = x :: rest →
      x.passwordHash ≠ p →
      login db false (some u) (some p) = .unauthorized "Incorrect password.") ∧
    loginStatus (.unauthorized "Username not found. Check spelling or sign up.")
      = 401 ∧
    loginStatus (.unauthorized "Incorrect password.") = 401 ∧
    ("Username not found. Check spelling or sign up." : String) ≠
      "Incorrect password." := by
  refine ⟨?_, ?_, rfl, rfl, by decide⟩
  · intro h
    simp [login, truthy_some_of_ne hu, truthy_some_of_ne hp, h]
  · intro x rest h hne
    simp [login, truthy_some_of_ne hu, truthy_some_of_ne hp, h, hne]

/-- Witness for C8: over a store holding only "ana" with hash "h", logging
in as "bob" gives the username message and logging in as "ana" with hash
"wrong" gives the password message. -/
theorem login_distinct_failures_witness :
    login ⟨[⟨"ana", "A", "L", "h", 0⟩], []⟩ false (some "bob") (some "x") =
      .unauthorized "Username not found. Check spelling or sign up." ∧
    login ⟨[⟨"ana", "A", "L", "h", 0⟩], []⟩ false (some "ana") (some "wrong") =
      .unauthorized "Incorrect password." :=
  ⟨(login_distinct_failures ⟨[⟨"ana", "A", "L", "h", 0⟩], []⟩ "bob" "x"
      (by decide) (by decide)).1 rfl,
   (login_distinct_failures ⟨[⟨"ana", "A", "L", "h", 0⟩], []⟩ "ana" "wrong"
      (by decide) (by decide)).2.1 (⟨"ana", "A", "L", "h", 0⟩ : User) [] rfl
      (by decide)⟩

/-! ### C6: signup followed by login succeeds -/

/-- C6: a signup with all four fields supplied and a username matching no
stored user succeeds, echoing the identity fields; a login against the
resulting store with the same username and password hash succeeds and
returns the same identity fields. -/
theorem signup_then_login (db : Db) (now : Nat) (u f l p : String)
    (hu : u ≠ "") (hf : f ≠ "") (hl : l ≠ "") (hp : p ≠ "")
    (hfree : ∀ x ∈ db.users, x.username ≠ u) :
    (signup db false now (some u) (some f) (some l) (some p)).1 =
      .ok u f l ∧
    signupStatus
      (signup db false now (some u) (some f) (some l) (some p)).1 = 200 ∧
    login (signup db false now (some u) (some f) (some l) (some p)).2 false
        (some u) (some p) =
      .ok u f l ((db.progress.filter (fun c => c.username == u)).map
        (fun c => c.questionId)) := by
  have hfilter : db.users.filter (fun x => x.username == u) = [] := by
    rw [List.filter_eq_nil_iff]
    intro x hx
    simp [hfree x hx]
  have h1 : signup db false now (some u) (some f) (some l) (some p) =
      (.ok u f l, { db with users := db.users ++ [⟨u, f, l, p, now⟩] }) := by
    simp [signup, truthy_some_of_ne hu, truthy_some_of_ne hf,
      truthy_some_of_ne hl, truthy_some_of_ne hp, hfilter]
  refine ⟨by rw [h1], by rw [h1]; rfl, ?_⟩
  rw [h1]
  simp [login, truthy_some_of_ne hu, truthy_some_of_ne hp, hfilter]

/-- Witness for C6: signing "ana" up on an empty store, then logging in. -/
theorem signup_then_login_witness :
    (signup ⟨[], []⟩ false 1 (some "ana") (some "Ana") (some "Lee")
        (some "h1")).1 = .ok "ana" "Ana" "Lee" ∧
    signupStatus (signup ⟨[], []⟩ false 1 (some "ana") (some "Ana")
        (some "Lee") (some "h1")).1 = 200 ∧
    login (signup ⟨[], []⟩ false 1 (some "ana") (some "Ana") (some "Lee")
        (some "h1")).2 false (some "ana") (some "h1") =
      .ok "ana" "Ana" "Lee"
        ((List.filter (fun c => c.username == "ana")
          ([] : List Completion)).map (fun c => c.questionId)) :=
  signup_then_login ⟨[], []⟩ 1 "ana" "Ana" "Lee" "h1"
    (by decide) (by decide) (by decide) (by decide) (by simp)

/-! ### C4: idempotent upsert -/

/-- Refreshing the timestamp of a row does not change which pairs it
matches. -/
theorem pairMatch_update (u' : String) (q' : Int) (t : Nat) (c : Completion) :
    pairMatch u' q' { c with completedAt := t } = pairMatch u' q' c := rfl

/-- The conditional timestamp refresh applied inside the upsert does not
change which pairs a row matches. -/
theorem pairMatch_updateFun (u u' : String) (q q' : Int) (t : Nat)
    (c : Completion) :
    pairMatch u' q'
        (if pairMatch u q c then { c with completedAt := t } else c) =
      pairMatch u' q' c := by
  by_cases hc : pairMatch u q c = true
  · rw [if_pos hc]
    rfl
  · rw [if_neg hc]

/-- Filtering commutes with a map that preserves the predicate. -/
theorem filter_map_update (p : Completion → Bool) (f : Completion → Completion)
    (hf : ∀ c, p (f c) = p c) :
    ∀ ps : List Completion, (ps.map f).filter p = (ps.filter p).map f := by
  intro ps
  induction ps with
  | nil => rfl
  | cons c cs ih =>
    simp only [List.map_cons, List.filter_cons, hf c]
    cases hc : p c <;> simp [hc, ih]

/-- After an upsert, the rows matching the upserted pair are exactly the one
fresh-timestamped row (provided the store held at most one such row). -/
theorem filter_upsert_self (ps : List Completion) (u : String) (q : Int)
    (t : Nat) (h : (ps.filter (pairMatch u q)).length ≤ 1) :
    (upsertProgress ps u q t).filter (pairMatch u q) = [⟨u, q, t⟩] := by
  unfold upsertProgress
  cases hany : ps.any (pairMatch u q) with
  | false =>
    have hnil : ps.filter (pairMatch u q) = [] := by
      rw [List.filter_eq_nil_iff]
      intro c hc hpc
      have : ps.any (pairMatch u q) = true := List.any_eq_true.mpr ⟨c, hc, hpc⟩
      simp [hany] at this
    simp only [hany, Bool.false_eq_true, if_false, List.filter_append, hnil,
      List.nil_append]
    simp [pairMatch]
  | true =>
    simp only [hany, if_true]
    rw [filter_map_update _ _ (pairMatch_updateFun u u q q t)]
    have hlen1 : (ps.filter (pairMatch u q)).length = 1 := by
      obtain ⟨c, hcmem, hcp⟩ := List.any_eq_true.mp hany
      have hmem : c ∈ ps.filter (pairMatch u q) :=
        List.mem_filter.mpr ⟨hcmem, hcp⟩
      have : 0 < (ps.filter (pairMatch u q)).length :=
        List.length_pos.mpr (List.ne_nil_of_mem hmem)
      omega
    obtain ⟨c0, hc0⟩ := List.length_eq_one.mp hlen1
    have hc0p : pairMatch u q c0 = true := by
      have : c0 ∈ ps.filter (pairMatch u q) := by
        rw [hc0]
        exact List.mem_cons_self _ _
      exact (List.mem_filter.mp this).2
    have he : c0.username = u ∧ c0.questionId = q := by
      simpa [pairMatch] using hc0p
    rw [hc0]
    simp [hc0p, he.1, he.2]

/-- An upsert preserves the at-most-one-row-per-pair invariant. -/
theorem upsert_unique (ps : List Completion) (u : String) (q : Int) (t : Nat)
    (h : ∀ u' q', ((ps.filter (pairMatch u' q')).length ≤ 1)) :
    ∀ u' q', (((upsertProgress ps u q t).filter (pairMatch u' q')).length ≤ 1) := by
  intro u' q'
  by_cases hpq : u' = u ∧ q' = q
  · obtain ⟨rfl, rfl⟩ := hpq
    rw [filter_upsert_self ps u' q' t (h u' q')]
    simp
  · unfold upsertProgress
    cases hany : ps.any (pairMatch u q) with
    | true =>
      simp only [if_true]
      rw [filter_map_update _ _ (pairMatch_updateFun u u' q q' t),
        List.length_map]
      exact h u' q'
    | false =>
      have hnew : pairMatch u' q' ⟨u, q, t⟩ = false := by
        apply Bool.eq_false_iff.mpr
        intro hcontra
        have : u = u' ∧ q = q' := by simpa [pairMatch] using hcontra
        exact hpq ⟨this.1.symm, this.2.symm⟩
      simp only [Bool.false_eq_true, if_false, List.filter_append]
      simp [hnew]
      exact h u' q'

/-- C4: grading the pair (u, qn) correctly twice (with both optional fields
supplied and both database writes succeeding) leaves exactly one completion
row for the pair, bearing the second (later) timestamp, and keeps the
at-most-one-row-per-pair invariant of the completion store. -/
theorem grade_twice_single_row (jp : String → Option Json)
    (key : Option String) (content : Option String) (db : Db)
    (t1 t2 : Nat) (q a : Option String) (u : String) (qn : Int)
    (hq : truthy q = true) (ha : truthy a = true) (hk : truthy key = true)
    (hc : statusIsCorrect (parseVerdict jp (trimStr (content.getD ""))) = true)
    (hu : u ≠ "")
    (hinv : ∀ u' q', ((db.progress.filter (pairMatch u' q')).length ≤ 1)) :
    ((gradeHandler jp ⟨key, .success content, false⟩
        (gradeHandler jp ⟨key, .success content, false⟩ db t1 q a
          (some u) (some qn)).2
        t2 q a (some u) (some qn)).2.progress.filter (pairMatch u qn)) =
      [⟨u, qn, t2⟩] ∧
    (∀ u' q',
      (((gradeHandler jp ⟨key, .success content, false⟩
          (gradeHandler jp ⟨key, .success content, false⟩ db t1 q a
            (some u) (some qn)).2
          t2 q a (some u) (some qn)).2.progress.filter
            (pairMatch u' q')).length ≤ 1)) := by
  have hnn := isNull_false_of_correct hc
  have hsave : canSave (some u) (some qn) = true := by
    simp [canSave, truthy_some_of_ne hu]
  have hdb1 : (gradeHandler jp ⟨key, .success content, false⟩ db t1 q a
      (some u) (some qn)).2 =
      { db with progress := upsertProgress db.progress u qn t1 } := by
    simp [gradeHandler, hq, ha, hk, hnn, hsave, hc]
  have hdb2 : (gradeHandler jp ⟨key, .success content, false⟩
      (gradeHandler jp ⟨key, .success content, false⟩ db t1 q a
        (some u) (some qn)).2 t2 q a (some u) (some qn)).2 =
      { db with
        progress :=
          upsertProgress (upsertProgress db.progress u qn t1) u qn t2 } := by
    rw [hdb1]
    simp [gradeHandler, hq, ha, hk, hnn, hsave, hc]
  constructor
  · rw [hdb2]
    exact filter_upsert_self _ _ _ _ (upsert_unique db.progress u qn t1 hinv u qn)
  · rw [hdb2]
    exact upsert_unique _ _ _ _ (upsert_unique db.progress u qn t1 hinv)

/-- Witness for C4: grading ("ana", 3) correctly twice over an empty store
leaves the single row with the second timestamp. -/
theorem grade_twice_single_row_witness :
    ((gradeHandler (fun _ : String => none)
        ⟨some "k", .success (some "Correct"), false⟩
        (gradeHandler (fun _ : String => none)
          ⟨some "k", .success (some "Correct"), false⟩ ⟨[], []⟩ 1
          (some "q") (some "a") (some "ana") (some 3)).2
        2 (some "q") (some "a") (some "ana")
        (some 3)).2.progress.filter (pairMatch "ana" 3)) =
      [⟨"ana", 3, 2⟩] :=
  (grade_twice_single_row (fun _ : String => none) (some "k")
    (some "Correct") ⟨[], []⟩ 1 2 (some "q") (some "a") "ana" 3
    rfl rfl rfl (by decide) (by decide) (fun u' q' => by simp)).1

/-! ### C5: leaderboard ordering -/

/-- The leaderboard order (count descending, username ascending) is total. -/
theorem lbLe_total (x y : LbEntry) : lbLe x y || lbLe y x := by
  simp only [lbLe, Bool.or_eq_true, Bool.and_eq_true, decide_eq_true_eq,
    beq_iff_eq]
  rcases Nat.lt_trichotomy x.done y.done with h | h | h
  · right
    left
    exact h
  · rcases le_total x.username y.username with h2 | h2
    · left
      right
      exact ⟨h, h2⟩
    · right
      right
      exact ⟨h.symm, h2⟩
  · left
    left
    exact h

/-- The leaderboard order is transitive. -/
theorem lbLe_trans (x y z : LbEntry) (h1 : lbLe x y) (h2 : lbLe y z) :
    lbLe x z := by
  simp only [lbLe, Bool.or_eq_true, Bool.and_eq_true, decide_eq_true_eq,
    beq_iff_eq] at h1 h2 ⊢
  rcases h1 with h1 | ⟨h1e, h1s⟩ <;> rcases h2 with h2 | ⟨h2e, h2s⟩
  · left
    omega
  · left
    omega
  · left
    omega
  · right
    exact ⟨h1e.trans h2e, le_trans h1s h2s⟩

/-- C5: the leaderboard returns (with a 200) exactly one entry per stored
user — a permutation of the per-user aggregation rows — sorted by
completion count descending with username ascending as tie-break, and a
user with no completion rows appears in the output with done = 0. -/
theorem leaderboard_ordered (db : Db) :
    leaderboard db false = .ok (lbRows db) ∧
    (lbRows db).Perm (db.users.map (lbEntry db)) ∧
    List.Pairwise (fun x y => lbLe x y = true) (lbRows db) ∧
    (∀ u ∈ db.users, doneCount db u.username = 0 →
      (⟨u.username, u.firstName, u.lastName, 0⟩ : LbEntry) ∈ lbRows db) := by
  refine ⟨rfl, List.mergeSort_perm _ _, ?_, ?_⟩
  · exact List.sorted_mergeSort (fun x y z => lbLe_trans x y z)
      (fun x y => lbLe_total x y) _
  · intro u hu hdone
    have hmem : lbEntry db u ∈ lbRows db := by
      unfold lbRows
      rw [List.mem_mergeSort]
      exact List.mem_map_of_mem _ hu
    have : lbEntry db u = ⟨u.username, u.firstName, u.lastName, 0⟩ := by
      simp [lbEntry, hdone]
    rwa [this] at hmem

/-- Witness for C5: over a store holding the user "ana" and no completions,
"ana" appears on the leaderboard with done = 0. -/
theorem leaderboard_ordered_witness :
    (⟨"ana", "A", "L", 0⟩ : LbEntry) ∈
      lbRows ⟨[⟨"ana", "A", "L", "h", 3⟩], []⟩ :=
  (leaderboard_ordered ⟨[⟨"ana", "A", "L", "h", 3⟩], []⟩).2.2.2
    ⟨"ana", "A", "L", "h", 3⟩ (by decide) rfl
